import Mathlib

/-!
Shallow embedding of the OANDA → Google Sheets → Discord reporting bot
(`src/oanda_gsheets_bot2.1.py` and `src/oanda_gsheets_bot3.py`).

External collaborators (the OANDA client, the Google Sheets client, the
Discord client and the `datetime.fromisoformat` parser) are modelled as
oracles: the fetch result is an `Except`, the sheet append and the
notification send are booleans saying whether the underlying call
succeeds, and the timestamp parser is a function returning `Option`.
Every branch of the Python cycle body is translated; the two source
files differ in the report colour rule, in the "no data" message and in
which notification sends are guarded, so each gets its own cycle
function (`runCycle_v21`, `runCycle_v3`) sharing the common record
transformer.
-/

namespace TraderBot

/-- One entry of the `bids` / `asks` arrays of a raw OANDA price record:
`{'price': <decimal string>}`. -/
structure PriceEntry where
  price : String
deriving Repr, DecidableEq

/-- A raw price record as the cycle body reads it.  A `none` field or an
empty `bids`/`asks` list models the `KeyError`/`IndexError` the Python
dictionary accesses can raise. -/
structure PriceData where
  instrument : Option String
  bids : List PriceEntry
  asks : List PriceEntry
  status : Option String
  time : Option String
deriving Repr, DecidableEq

/-- Python `str.ljust(w)`: pad on the right with spaces up to a
minimum width `w`; a longer string is returned unchanged. -/
def ljust (s : String) (w : Nat) : String :=
  s ++ String.mk (List.replicate (w - s.length) ' ')

/-- Python `str.rjust(w)`: pad on the left with spaces up to a
minimum width `w`; a longer string is returned unchanged. -/
def rjust (s : String) (w : Nat) : String :=
  String.mk (List.replicate (w - s.length) ' ') ++ s

/-- The Discord table row built at
`discord_row = f"{instrument.ljust(10)}| {bid_price.rjust(10)} | {ask_price.rjust(10)}"`. -/
def displayRow (instrument bid ask : String) : String :=
  ljust instrument 10 ++ "| " ++ rjust bid 10 ++ " | " ++ rjust ask 10

/-- The table header
`f"{'Instrument'.ljust(10)}| {'BID'.rjust(11)} | {'ASK'.rjust(11)}"`. -/
def tableHeader : String :=
  ljust "Instrument" 10 ++ "| " ++ rjust "BID" 11 ++ " | " ++ rjust "ASK" 11

/-- The separator rule `"-" * len(header)`. -/
def tableSeparator : String :=
  String.mk (List.replicate tableHeader.length '-')

/-- A Google-Sheets row `[instrument, timestamp_str, status, bid, ask]`. -/
structure SheetRow where
  instrument : String
  timestamp : String
  status : String
  bid : String
  ask : String
deriving Repr, DecidableEq

/-- Model of `price_data['time'].replace('Z', '+00:00')`: every occurrence of the
single character `Z` is replaced by `+00:00`. -/
def replaceZ (s : String) : String :=
  String.mk (s.data.foldr
    (fun c acc => if c = 'Z' then '+' :: '0' :: '0' :: ':' :: '0' :: '0' :: acc else c :: acc)
    [])

/-- A timestamp-parsing oracle standing for
`datetime.fromisoformat` followed by `strftime('%Y-%m-%d %H:%M:%S')`:
`none` models the `ValueError` of an unparseable string, `some s` the
formatted display string. -/
def TimeParser : Type := String → Option String

/-- The body of the `for price_data in response.get('prices', [])` loop
for one record, threading the two accumulator lists
`(table_rows_for_discord, all_rows_for_gsheet)`.  Each dictionary /
array access is a `match`; reaching a missing field raises, which
leaves both lists as they stand at that point — in particular the
Discord row has already been appended when the `time` lookup, the
timestamp parse or the `status` lookup fails. -/
def processRecord (parseTime : TimeParser) (p : PriceData)
    (acc : List String × List SheetRow) : List String × List SheetRow :=
  match p.instrument with
  | none => acc
  | some instrument =>
    match p.bids.head? with
    | none => acc
    | some bidEntry =>
      match p.asks.head? with
      | none => acc
      | some askEntry =>
        let acc1 := (acc.1 ++ [displayRow instrument bidEntry.price askEntry.price], acc.2)
        match p.time with
        | none => acc1
        | some t =>
          match parseTime (replaceZ t) with
          | none => acc1
          | some timestampStr =>
            match p.status with
            | none => acc1
            | some st =>
              (acc1.1,
               acc1.2 ++ [⟨instrument, timestampStr, st, bidEntry.price, askEntry.price⟩])

/-- The whole record loop: fold `processRecord` over the response's
price records, starting from two empty lists. -/
def processPrices (parseTime : TimeParser) (prices : List PriceData) :
    List String × List SheetRow :=
  prices.foldl (fun acc p => processRecord parseTime p acc) ([], [])

/-- Result of `append_bulk_to_sheet`: the returned count, whether the
body of the `try` block was entered (i.e. a network call was made), and
the sheet contents afterwards. -/
structure SinkResult where
  rowsWritten : Nat
  networkCalled : Bool
  sheet : List SheetRow
deriving Repr, DecidableEq

/-- Model of `append_bulk_to_sheet(client, sheet_name, data_rows)`.  `appendOk`
is the oracle for whether the `client.open(...)`/`append_rows(...)`
calls succeed; `sheet` is the current contents of the target sheet.
Empty input returns 0 before the `try` block; any failure inside the
`try` is caught and returns 0; success appends all rows in order and
returns their count. -/
def append_bulk_to_sheet (appendOk : Bool) (sheet : List SheetRow)
    (data_rows : List SheetRow) : SinkResult :=
  if data_rows.isEmpty then
    ⟨0, false, sheet⟩
  else if appendOk then
    ⟨data_rows.length, true, sheet ++ data_rows⟩
  else
    ⟨0, true, sheet⟩

/-- The three Discord embed colours the bot uses. -/
inductive Color where
  | red
  | green
  | orange
deriving Repr, DecidableEq

/-- The parts of a `discord.Embed` the bot sets. -/
structure Embed where
  title : String
  color : Color
  description : Option String
  fields : List (String × String)
deriving Repr, DecidableEq

/-- The table block `"\n".join(rows)` wrapped with the header, separator and the
code-block fence: `f"```\n{header}\n{separator}\n{table_content}\n```"`. -/
def fullTable (rows : List String) : String :=
  "```\n" ++ tableHeader ++ "\n" ++ tableSeparator ++ "\n" ++
    String.intercalate "\n" rows ++ "\n```"

/-- The minimal failure embed of `oanda_gsheets_bot2.1.py` line 96:
`discord.Embed(title="OANDA API Failure", description=f"Could not fetch
data. Error: ...", color=discord.Color.red())`. -/
def failureEmbed_v21 (e : String) : Embed :=
  { title := "OANDA API Failure"
    color := Color.red
    description := some ("Could not fetch data. Error: `" ++ e ++ "`")
    fields := [] }

/-- The minimal failure embed of `oanda_gsheets_bot3.py` line 90:
`discord.Embed(title="OANDA API Failure", description=f"Error: ...",
color=discord.Color.red())`. -/
def failureEmbed_v3 (e : String) : Embed :=
  { title := "OANDA API Failure"
    color := Color.red
    description := some ("Error: `" ++ e ++ "`")
    fields := [] }

/-- The full report embed of `oanda_gsheets_bot2.1.py` (lines 127-148):
green iff `rows_written > 0 and rows_written == len(INSTRUMENTS_LIST)`,
else orange; a "Live Prices" table field when the Discord row list is
non-empty, otherwise the explicit no-data description; then the two
summary fields (`Instruments Fetched` is `len(all_rows_for_gsheet)`). -/
def buildEmbed_v21 (displayRows : List String) (sheetRows : List SheetRow)
    (rowsWritten instrumentsRequested : Nat) : Embed :=
  let color := if rowsWritten > 0 ∧ rowsWritten = instrumentsRequested then
    Color.green else Color.orange
  let base : Embed := { title := "OANDA Price Report", color := color,
                        description := none, fields := [] }
  let withTable :=
    if displayRows.isEmpty then
      { base with description := some "No price data was returned from the API." }
    else
      { base with fields := [("Live Prices", fullTable displayRows)] }
  { withTable with
      fields := withTable.fields ++
        [("Instruments Fetched", "`" ++ toString sheetRows.length ++ "`"),
         ("Rows Written to GSheet", "`" ++ toString rowsWritten ++ "`")] }

/-- The full report embed of `oanda_gsheets_bot3.py` (lines 111-120):
green iff `rows_written > 0` (no comparison with the requested
instrument count), and no description at all when the Discord row list
is empty. -/
def buildEmbed_v3 (displayRows : List String) (sheetRows : List SheetRow)
    (rowsWritten : Nat) : Embed :=
  let color := if rowsWritten > 0 then Color.green else Color.orange
  let base : Embed := { title := "OANDA Price Report", color := color,
                        description := none, fields := [] }
  let withTable :=
    if displayRows.isEmpty then base
    else
      { base with fields := [("Live Prices", fullTable displayRows)] }
  { withTable with
      fields := withTable.fields ++
        [("Instruments Fetched", "`" ++ toString sheetRows.length ++ "`"),
         ("Rows Written to GSheet", "`" ++ toString rowsWritten ++ "`")] }

/-- The oracles one execution of `monitor_and_report` consults:
whether `bot.get_channel` finds the channel, the OANDA request's
outcome, the configured `len(INSTRUMENTS_LIST)`, whether
`bot.gspread_client` is non-`None`, whether the Sheets append call
succeeds, whether `channel.send` succeeds, and the timestamp parser. -/
structure CycleInput where
  channelAvailable : Bool
  fetchResult : Except String (List PriceData)
  instrumentsRequested : Nat
  gspreadClient : Bool
  appendOk : Bool
  notifyOk : Bool
  parseTime : TimeParser

/-- Observable outcome of one cycle body that returned normally. -/
structure CycleOutcome where
  fetchFailed : Bool
  displayRows : List String
  sheetRows : List SheetRow
  sinkCalled : Bool
  rowsWritten : Nat
  embedBuilt : Option Embed
  notifySucceeded : Bool
deriving Repr, DecidableEq

/-- The `if not channel: ... return` early exit: nothing fetched,
parsed, written or sent. -/
def skipOutcome : CycleOutcome :=
  ⟨false, [], [], false, 0, none, false⟩

/-- The fetch-failure path after a successful failure notification:
nothing parsed or written, only the minimal embed sent. -/
def failOutcome (emb : Embed) : CycleOutcome :=
  ⟨true, [], [], false, 0, some emb, true⟩

/-- Model of `rows_written = append_bulk_to_sheet(bot.gspread_client, GOOGLE_SHEET_NAME,
all_rows_for_gsheet) if bot.gspread_client else 0`: with no Sheets
client the sink is not called at all. -/
def sinkResultOf (inp : CycleInput) (sheetRows : List SheetRow) : SinkResult :=
  if inp.gspreadClient then append_bulk_to_sheet inp.appendOk [] sheetRows
  else ⟨0, false, []⟩

/-- The fetch-success path of `oanda_gsheets_bot2.1.py`: transform,
write, build the full report embed. -/
def normalOutcome_v21 (inp : CycleInput) (prices : List PriceData) : CycleOutcome :=
  let rows := processPrices inp.parseTime prices
  let sinkRes := sinkResultOf inp rows.2
  ⟨false, rows.1, rows.2, sinkRes.networkCalled, sinkRes.rowsWritten,
   some (buildEmbed_v21 rows.1 rows.2 sinkRes.rowsWritten inp.instrumentsRequested),
   inp.notifyOk⟩

/-- The fetch-success path of `oanda_gsheets_bot3.py` (the report embed
differs from `v21`). -/
def normalOutcome_v3 (inp : CycleInput) (prices : List PriceData) : CycleOutcome :=
  let rows := processPrices inp.parseTime prices
  let sinkRes := sinkResultOf inp rows.2
  ⟨false, rows.1, rows.2, sinkRes.networkCalled, sinkRes.rowsWritten,
   some (buildEmbed_v3 rows.1 rows.2 sinkRes.rowsWritten),
   inp.notifyOk⟩

/-- One execution of `monitor_and_report` in `oanda_gsheets_bot2.1.py`.
`Except.error` models an exception escaping the coroutine body: the
only unguarded `channel.send` is the failure notification on line 96
(inside the `except` clause, outside any `try`); the final report send
(lines 151-155) is guarded, so a failure there is only logged and the
cycle still returns normally with `notifySucceeded = false`. -/
def runCycle_v21 (inp : CycleInput) : Except String CycleOutcome :=
  if !inp.channelAvailable then
    Except.ok skipOutcome
  else
    match inp.fetchResult with
    | Except.error e =>
      if inp.notifyOk then
        Except.ok (failOutcome (failureEmbed_v21 e))
      else
        Except.error "channel.send raised in fetch-failure path"
    | Except.ok prices =>
      Except.ok (normalOutcome_v21 inp prices)

/-- One execution of `monitor_and_report` in `oanda_gsheets_bot3.py`.
Neither `channel.send` (line 90 in the fetch-failure path, line 121 for
the report) is guarded, so a failing send raises out of the coroutine
body in both paths. -/
def runCycle_v3 (inp : CycleInput) : Except String CycleOutcome :=
  if !inp.channelAvailable then
    Except.ok skipOutcome
  else
    match inp.fetchResult with
    | Except.error e =>
      if inp.notifyOk then
        Except.ok (failOutcome (failureEmbed_v3 e))
      else
        Except.error "channel.send raised in fetch-failure path"
    | Except.ok prices =>
      if inp.notifyOk then
        Except.ok (normalOutcome_v3 inp prices)
      else
        Except.error "channel.send raised in report path"

/-- The `@tasks.loop(seconds=CHECK_INTERVAL_SECONDS)` decorator: the
wait before the next invocation of the cycle body is the configured
interval, irrespective of what the cycle body returned. -/
def nextCycleDelay (intervalSeconds : Nat) (_r : Except String CycleOutcome) : Nat :=
  intervalSeconds

/-! ## Structural lemmas about the record transformer -/

/-- Per record, the loop body leaves both accumulators unchanged, adds
exactly one Discord row, or adds one Discord row and one sheet row. -/
theorem processRecord_shape (parseTime : TimeParser) (p : PriceData)
    (acc : List String × List SheetRow) :
    processRecord parseTime p acc = acc ∨
    (∃ d, processRecord parseTime p acc = (acc.1 ++ [d], acc.2)) ∨
    (∃ d r, processRecord parseTime p acc = (acc.1 ++ [d], acc.2 ++ [r])) := by
  obtain ⟨i, bs, as2, st, t⟩ := p
  cases i with
  | none => exact Or.inl rfl
  | some instrument =>
    cases bs with
    | nil => exact Or.inl rfl
    | cons bidEntry bs' =>
      cases as2 with
      | nil => exact Or.inl rfl
      | cons askEntry as' =>
        cases t with
        | none =>
          exact Or.inr (Or.inl ⟨displayRow instrument bidEntry.price askEntry.price, rfl⟩)
        | some t0 =>
          cases st with
          | none =>
            cases hp : parseTime (replaceZ t0) with
            | none =>
              exact Or.inr (Or.inl ⟨displayRow instrument bidEntry.price askEntry.price,
                by simp [processRecord, hp]⟩)
            | some ts =>
              exact Or.inr (Or.inl ⟨displayRow instrument bidEntry.price askEntry.price,
                by simp [processRecord, hp]⟩)
          | some st0 =>
            cases hp : parseTime (replaceZ t0) with
            | none =>
              exact Or.inr (Or.inl ⟨displayRow instrument bidEntry.price askEntry.price,
                by simp [processRecord, hp]⟩)
            | some ts =>
              exact Or.inr (Or.inr
                ⟨displayRow instrument bidEntry.price askEntry.price,
                 ⟨instrument, ts, st0, bidEntry.price, askEntry.price⟩,
                 by simp [processRecord, hp]⟩)

/-- The loop body never removes Discord rows and adds at most one sheet
row, keeping `|sheet| ≤ |display|` whenever it held before. -/
theorem processRecord_sheet_le_display (parseTime : TimeParser) (p : PriceData)
    (acc : List String × List SheetRow) (h : acc.2.length ≤ acc.1.length) :
    (processRecord parseTime p acc).2.length ≤ (processRecord parseTime p acc).1.length := by
  rcases processRecord_shape parseTime p acc with heq | ⟨d, heq⟩ | ⟨d, r, heq⟩ <;>
    simp [heq] <;> omega

/-- The loop body adds at most one sheet row. -/
theorem processRecord_sheet_le_succ (parseTime : TimeParser) (p : PriceData)
    (acc : List String × List SheetRow) :
    (processRecord parseTime p acc).2.length ≤ acc.2.length + 1 := by
  rcases processRecord_shape parseTime p acc with heq | ⟨d, heq⟩ | ⟨d, r, heq⟩ <;>
    simp [heq]

/-- Fold invariant: the sheet-row list never outgrows the Discord-row
list. -/
theorem foldl_sheet_le_display (parseTime : TimeParser) (prices : List PriceData)
    (acc : List String × List SheetRow) (h : acc.2.length ≤ acc.1.length) :
    (prices.foldl (fun a p => processRecord parseTime p a) acc).2.length ≤
      (prices.foldl (fun a p => processRecord parseTime p a) acc).1.length := by
  induction prices generalizing acc with
  | nil => simpa using h
  | cons p ps ih =>
    exact ih _ (processRecord_sheet_le_display parseTime p acc h)

/-- Fold bound: at most one sheet row per price record. -/
theorem foldl_sheet_le_count (parseTime : TimeParser) (prices : List PriceData)
    (acc : List String × List SheetRow) :
    (prices.foldl (fun a p => processRecord parseTime p a) acc).2.length ≤
      acc.2.length + prices.length := by
  induction prices generalizing acc with
  | nil => simp
  | cons p ps ih =>
    calc (List.foldl (fun a p => processRecord parseTime p a)
            (processRecord parseTime p acc) ps).2.length
        ≤ (processRecord parseTime p acc).2.length + ps.length := ih _
      _ ≤ acc.2.length + 1 + ps.length := by
          have := processRecord_sheet_le_succ parseTime p acc
          omega
      _ = acc.2.length + (p :: ps).length := by simp; omega

/-- In every batch, there are at least as many Discord rows as sheet
rows. -/
theorem processPrices_sheet_le_display (parseTime : TimeParser)
    (prices : List PriceData) :
    (processPrices parseTime prices).2.length ≤ (processPrices parseTime prices).1.length :=
  foldl_sheet_le_display parseTime prices ([], []) (by simp)

/-- In every batch, there is at most one sheet row per raw record. -/
theorem processPrices_sheet_le_count (parseTime : TimeParser)
    (prices : List PriceData) :
    (processPrices parseTime prices).2.length ≤ prices.length := by
  have := foldl_sheet_le_count parseTime prices ([], [])
  simpa [processPrices] using this

/-- A record that raises before the Discord-row append (missing
`instrument` key, or no first `bids`/`asks` entry) leaves both
accumulators untouched. -/
theorem processRecord_early_fail (parseTime : TimeParser) (p : PriceData)
    (acc : List String × List SheetRow)
    (h : p.instrument = none ∨ p.bids = [] ∨ p.asks = []) :
    processRecord parseTime p acc = acc := by
  obtain ⟨i, bs, as2, st, t⟩ := p
  rcases h with h | h | h
  · simp only at h
    subst h
    rfl
  · simp only at h
    subst h
    cases i <;> rfl
  · simp only at h
    subst h
    cases i <;> cases bs <;> rfl

/-- A record that raises at or after the `time` lookup (missing `time`
or `status` key, or an unparseable timestamp) has already appended its
Discord row, and adds no sheet row. -/
theorem processRecord_late_fail (parseTime : TimeParser) (q : PriceData)
    (acc : List String × List SheetRow) (i : String) (b a : PriceEntry)
    (hqi : q.instrument = some i) (hqb : q.bids.head? = some b)
    (hqa : q.asks.head? = some a)
    (hlate : q.time = none ∨
      (∀ t, q.time = some t → parseTime (replaceZ t) = none) ∨
      q.status = none) :
    processRecord parseTime q acc = (acc.1 ++ [displayRow i b.price a.price], acc.2) := by
  obtain ⟨i', bs, as2, st, t⟩ := q
  simp only at hqi hqb hqa
  subst hqi
  rcases hlate with h | h | h
  · simp only at h
    subst h
    simp [processRecord, hqb, hqa]
  · cases t with
    | none => simp [processRecord, hqb, hqa]
    | some t0 =>
      have hp : parseTime (replaceZ t0) = none := h t0 (by simp only)
      cases st <;> simp [processRecord, hqb, hqa, hp]
  · simp only at h
    subst h
    cases t with
    | none => simp [processRecord, hqb, hqa]
    | some t0 =>
      cases hp : parseTime (replaceZ t0) <;> simp [processRecord, hqb, hqa, hp]

/-- A fully valid record appends exactly one Discord row and one sheet
row with the fields in source order. -/
theorem processRecord_valid (parseTime : TimeParser) (p : PriceData)
    (acc : List String × List SheetRow) (i st t ts : String) (b a : PriceEntry)
    (hi : p.instrument = some i) (hb : p.bids.head? = some b)
    (ha : p.asks.head? = some a) (hs : p.status = some st)
    (ht : p.time = some t) (hp : parseTime (replaceZ t) = some ts) :
    processRecord parseTime p acc =
      (acc.1 ++ [displayRow i b.price a.price],
       acc.2 ++ [⟨i, ts, st, b.price, a.price⟩]) := by
  obtain ⟨i', bs, as2, st', t'⟩ := p
  simp only at hi hb ha hs ht
  subst hi hs ht
  simp [processRecord, hb, ha, hp]

/-- Dropping a record that the loop body ignores does not change the
batch output. -/
theorem processPrices_drop_no_op (parseTime : TimeParser)
    (xs ys : List PriceData) (p : PriceData)
    (h : p.instrument = none ∨ p.bids = [] ∨ p.asks = []) :
    processPrices parseTime (xs ++ p :: ys) = processPrices parseTime (xs ++ ys) := by
  unfold processPrices
  rw [List.foldl_append, List.foldl_append, List.foldl_cons,
    processRecord_early_fail parseTime p _ h]

/-! ## Claim theorems -/

/-- C2: every raw price record carrying an instrument symbol, a first
bid price, a first ask price, a status and a parseable timestamp
produces exactly one SheetRow and exactly one DisplayRow, the SheetRow
fields being (instrument, formatted time, status, bid, ask) in that
order. -/
theorem C2_valid_record_rows (parseTime : TimeParser) (p : PriceData)
    (acc : List String × List SheetRow) (i st t ts : String) (b a : PriceEntry)
    (hi : p.instrument = some i) (hb : p.bids.head? = some b)
    (ha : p.asks.head? = some a) (hs : p.status = some st)
    (ht : p.time = some t) (hp : parseTime (replaceZ t) = some ts) :
    processRecord parseTime p acc =
      (acc.1 ++ [displayRow i b.price a.price],
       acc.2 ++ [⟨i, ts, st, b.price, a.price⟩]) :=
  processRecord_valid parseTime p acc i st t ts b a hi hb ha hs ht hp

/-- Witness for C2 at a concrete valid record. -/
theorem C2_valid_record_rows_witness :
    processRecord
      (fun s => if s = "2024-01-02T03:04:05+00:00" then some "2024-01-02 03:04:05" else none)
      ⟨some "EUR_USD", [⟨"1.07321"⟩], [⟨"1.07335"⟩], some "tradeable",
        some "2024-01-02T03:04:05Z"⟩
      ([], []) =
      ([displayRow "EUR_USD" "1.07321" "1.07335"],
       [⟨"EUR_USD", "2024-01-02 03:04:05", "tradeable", "1.07321", "1.07335"⟩]) :=
  C2_valid_record_rows
    (fun s => if s = "2024-01-02T03:04:05+00:00" then some "2024-01-02 03:04:05" else none)
    ⟨some "EUR_USD", [⟨"1.07321"⟩], [⟨"1.07335"⟩], some "tradeable",
      some "2024-01-02T03:04:05Z"⟩
    ([], []) "EUR_USD" "tradeable" "2024-01-02T03:04:05Z" "2024-01-02 03:04:05"
    ⟨"1.07321"⟩ ⟨"1.07335"⟩ rfl rfl rfl rfl rfl (by decide)

/-- C3 counterexample: a record with a valid instrument, first bid and
first ask but an unparseable timestamp is NOT excluded from the cycle's
output — it still contributes a DisplayRow (only the SheetRow is
missing), so "contributes neither a SheetRow nor a DisplayRow" fails. -/
theorem C3_counterexample :
    (processPrices (fun _ => none)
        [⟨some "EUR_USD", [⟨"1.07321"⟩], [⟨"1.07335"⟩], some "tradeable",
          some "not-a-timestamp"⟩]).1 =
      [displayRow "EUR_USD" "1.07321" "1.07335"] ∧
    (processPrices (fun _ => none)
        [⟨some "EUR_USD", [⟨"1.07321"⟩], [⟨"1.07335"⟩], some "tradeable",
          some "not-a-timestamp"⟩]).1 ≠ [] ∧
    (processPrices (fun _ => none)
        [⟨some "EUR_USD", [⟨"1.07321"⟩], [⟨"1.07335"⟩], some "tradeable",
          some "not-a-timestamp"⟩]).2 = [] := by
  refine ⟨rfl, ?_, rfl⟩
  have h1 : (processPrices (fun _ => none)
      [⟨some "EUR_USD", [⟨"1.07321"⟩], [⟨"1.07335"⟩], some "tradeable",
        some "not-a-timestamp"⟩]).1 =
      [displayRow "EUR_USD" "1.07321" "1.07335"] := rfl
  rw [h1]
  simp

/-- C3 amended: a record missing its instrument or without a first
bid/ask entry contributes nothing and the rest of the batch is
processed as if the record were absent; a record with a valid
instrument, first bid and first ask whose failure comes later (missing
`time` or `status` key, or unparseable timestamp) contributes its
DisplayRow but no SheetRow. -/
theorem C3_amended_partial_isolation (parseTime : TimeParser)
    (xs ys : List PriceData) (p q : PriceData)
    (acc : List String × List SheetRow) (i : String) (b a : PriceEntry)
    (hearly : p.instrument = none ∨ p.bids = [] ∨ p.asks = [])
    (hqi : q.instrument = some i) (hqb : q.bids.head? = some b)
    (hqa : q.asks.head? = some a)
    (hlate : q.time = none ∨
      (∀ t, q.time = some t → parseTime (replaceZ t) = none) ∨
      q.status = none) :
    processPrices parseTime (xs ++ p :: ys) = processPrices parseTime (xs ++ ys) ∧
    processRecord parseTime q acc = (acc.1 ++ [displayRow i b.price a.price], acc.2) :=
  ⟨processPrices_drop_no_op parseTime xs ys p hearly,
   processRecord_late_fail parseTime q acc i b a hqi hqb hqa hlate⟩

/-- Witness for the amended C3: a batch of one valid record, one record
with no `bids` entry, and one record with a bad timestamp. -/
theorem C3_amended_partial_isolation_witness :
    processPrices (fun _ => none)
        ([⟨some "EUR_USD", [⟨"1.1"⟩], [⟨"1.2"⟩], some "tradeable", some "x"⟩] ++
          ⟨some "GBP_USD", [], [⟨"1.3"⟩], some "tradeable", some "x"⟩ ::
          [⟨some "USD_JPY", [⟨"150.1"⟩], [⟨"150.2"⟩], some "tradeable", some "x"⟩]) =
      processPrices (fun _ => none)
        ([⟨some "EUR_USD", [⟨"1.1"⟩], [⟨"1.2"⟩], some "tradeable", some "x"⟩] ++
          [⟨some "USD_JPY", [⟨"150.1"⟩], [⟨"150.2"⟩], some "tradeable", some "x"⟩]) ∧
    processRecord (fun _ => none)
        ⟨some "AUD_USD", [⟨"0.65"⟩], [⟨"0.66"⟩], some "tradeable", some "bad-time"⟩
        ([], []) =
      ([] ++ [displayRow "AUD_USD" "0.65" "0.66"], []) :=
  C3_amended_partial_isolation (fun _ => none)
    [⟨some "EUR_USD", [⟨"1.1"⟩], [⟨"1.2"⟩], some "tradeable", some "x"⟩]
    [⟨some "USD_JPY", [⟨"150.1"⟩], [⟨"150.2"⟩], some "tradeable", some "x"⟩]
    ⟨some "GBP_USD", [], [⟨"1.3"⟩], some "tradeable", some "x"⟩
    ⟨some "AUD_USD", [⟨"0.65"⟩], [⟨"0.66"⟩], some "tradeable", some "bad-time"⟩
    ([], []) "AUD_USD" ⟨"0.65"⟩ ⟨"0.66"⟩
    (Or.inr (Or.inl rfl)) rfl rfl rfl
    (Or.inr (Or.inl (fun _ _ => rfl)))

/-- C10: in every batch the number of DisplayRows is at least the
number of SheetRows, and a record with a valid instrument, first bid
and first ask but a missing/unparseable timestamp or missing status
contributes a DisplayRow while contributing no SheetRow. -/
theorem C10_display_ge_sheet (parseTime : TimeParser) (prices : List PriceData)
    (q : PriceData) (acc : List String × List SheetRow) (i : String)
    (b a : PriceEntry)
    (hqi : q.instrument = some i) (hqb : q.bids.head? = some b)
    (hqa : q.asks.head? = some a)
    (hlate : q.time = none ∨
      (∀ t, q.time = some t → parseTime (replaceZ t) = none) ∨
      q.status = none) :
    (processPrices parseTime prices).2.length ≤
      (processPrices parseTime prices).1.length ∧
    processRecord parseTime q acc = (acc.1 ++ [displayRow i b.price a.price], acc.2) :=
  ⟨processPrices_sheet_le_display parseTime prices,
   processRecord_late_fail parseTime q acc i b a hqi hqb hqa hlate⟩

/-- Witness for C10: a record with a missing `time` key contributes a
DisplayRow and no SheetRow. -/
theorem C10_display_ge_sheet_witness :
    (processPrices (fun _ => some "2024-01-02 03:04:05")
        [⟨some "EUR_USD", [⟨"1.1"⟩], [⟨"1.2"⟩], some "tradeable", none⟩]).2.length ≤
      (processPrices (fun _ => some "2024-01-02 03:04:05")
        [⟨some "EUR_USD", [⟨"1.1"⟩], [⟨"1.2"⟩], some "tradeable", none⟩]).1.length ∧
    processRecord (fun _ => some "2024-01-02 03:04:05")
        ⟨some "EUR_USD", [⟨"1.1"⟩], [⟨"1.2"⟩], some "tradeable", none⟩ ([], []) =
      ([] ++ [displayRow "EUR_USD" "1.1" "1.2"], []) :=
  C10_display_ge_sheet (fun _ => some "2024-01-02 03:04:05")
    [⟨some "EUR_USD", [⟨"1.1"⟩], [⟨"1.2"⟩], some "tradeable", none⟩]
    ⟨some "EUR_USD", [⟨"1.1"⟩], [⟨"1.2"⟩], some "tradeable", none⟩
    ([], []) "EUR_USD" ⟨"1.1"⟩ ⟨"1.2"⟩ rfl rfl rfl (Or.inl rfl)

/-- C4: the spreadsheet sink returns 0 on an empty row list without
entering the `try` block (no network call); when the single bulk-append
call succeeds it appends all rows in order and returns their count; on
any failure of the call it returns 0; it is a total function of its
oracles, so nothing is raised past its boundary. -/
theorem C4_sink_contract (appendOk : Bool) (sheet data_rows : List SheetRow) :
    (data_rows = [] →
      append_bulk_to_sheet appendOk sheet data_rows = ⟨0, false, sheet⟩) ∧
    (data_rows ≠ [] → appendOk = true →
      append_bulk_to_sheet appendOk sheet data_rows =
        ⟨data_rows.length, true, sheet ++ data_rows⟩) ∧
    (data_rows ≠ [] → appendOk = false →
      append_bulk_to_sheet appendOk sheet data_rows = ⟨0, true, sheet⟩) := by
  refine ⟨fun h => ?_, fun h hok => ?_, fun h hko => ?_⟩
  · simp [append_bulk_to_sheet, h]
  · subst hok
    simp [append_bulk_to_sheet, h]
  · subst hko
    simp [append_bulk_to_sheet, h]

/-- Witness for C4: the three cases at concrete rows. -/
theorem C4_sink_contract_witness :
    append_bulk_to_sheet true [] [] = ⟨0, false, []⟩ ∧
    append_bulk_to_sheet true []
        [⟨"EUR_USD", "2024-01-02 03:04:05", "tradeable", "1.1", "1.2"⟩] =
      ⟨1, true, [⟨"EUR_USD", "2024-01-02 03:04:05", "tradeable", "1.1", "1.2"⟩]⟩ ∧
    append_bulk_to_sheet false []
        [⟨"EUR_USD", "2024-01-02 03:04:05", "tradeable", "1.1", "1.2"⟩] =
      ⟨0, true, []⟩ :=
  ⟨(C4_sink_contract true [] []).1 rfl,
   (C4_sink_contract true []
      [⟨"EUR_USD", "2024-01-02 03:04:05", "tradeable", "1.1", "1.2"⟩]).2.1
      (by simp) rfl,
   (C4_sink_contract false []
      [⟨"EUR_USD", "2024-01-02 03:04:05", "tradeable", "1.1", "1.2"⟩]).2.2
      (by simp) rfl⟩

/-- C8: a DisplayRow is the instrument left-justified to a minimum
field width of 10 (space-padded; an instrument of 10+ characters is
kept whole, never cut), then `"| "`, the bid right-justified to width
10, `" | "`, and the ask right-justified to width 10; the header uses
`Instrument` at width 10 and `BID`/`ASK` at width 11 with the same
separators; the separator rule is a dash string whose length equals the
rendered header's length. -/
theorem C8_table_format (i b a : String) :
    displayRow i b a =
      (i ++ String.mk (List.replicate (10 - i.length) ' ')) ++ "| " ++
      (String.mk (List.replicate (10 - b.length) ' ') ++ b) ++ " | " ++
      (String.mk (List.replicate (10 - a.length) ' ') ++ a) ∧
    (i.length ≤ 10 → (ljust i 10).length = 10) ∧
    (10 ≤ i.length → ljust i 10 = i) ∧
    tableHeader =
      ljust "Instrument" 10 ++ "| " ++ rjust "BID" 11 ++ " | " ++ rjust "ASK" 11 ∧
    tableHeader = "Instrument|         BID |         ASK" ∧
    tableHeader.length = 37 ∧
    tableSeparator = String.mk (List.replicate tableHeader.length '-') ∧
    tableSeparator.length = tableHeader.length := by
  refine ⟨rfl, fun h => ?_, fun h => ?_, rfl, by decide, by decide, rfl, by decide⟩
  · simp [ljust]
    omega
  · simp [ljust, Nat.sub_eq_zero_of_le h]

/-- Witness for C8: a short instrument is padded to exactly 10 and a
long one is left whole. -/
theorem C8_table_format_witness :
    (ljust "EUR_USD" 10).length = 10 ∧
    ljust "VERY_LONG_PAIR" 10 = "VERY_LONG_PAIR" :=
  ⟨(C8_table_format "EUR_USD" "1.1" "1.2").2.1 (by decide),
   (C8_table_format "VERY_LONG_PAIR" "1.1" "1.2").2.2.1 (by decide)⟩

/-! ## Inversion and report-embed lemmas for the cycle bodies -/

/-- A normally-returning `v2.1` cycle is the skip, fetch-failure or
fetch-success path. -/
theorem runCycle_v21_ok_cases (inp : CycleInput) (out : CycleOutcome)
    (h : runCycle_v21 inp = Except.ok out) :
    (inp.channelAvailable = false ∧ out = skipOutcome) ∨
    (∃ e, inp.channelAvailable = true ∧ inp.fetchResult = Except.error e ∧
      inp.notifyOk = true ∧ out = failOutcome (failureEmbed_v21 e)) ∨
    (∃ prices, inp.channelAvailable = true ∧ inp.fetchResult = Except.ok prices ∧
      out = normalOutcome_v21 inp prices) := by
  unfold runCycle_v21 at h
  cases hch : inp.channelAvailable with
  | false =>
    rw [hch] at h
    simp at h
    exact Or.inl ⟨rfl, h.symm⟩
  | true =>
    rw [hch] at h
    simp only [Bool.not_true, Bool.false_eq_true, if_false] at h
    cases hf : inp.fetchResult with
    | error e =>
      rw [hf] at h
      cases hn : inp.notifyOk with
      | false => rw [hn] at h; simp at h
      | true =>
        rw [hn] at h
        simp at h
        exact Or.inr (Or.inl ⟨e, rfl, rfl, rfl, h.symm⟩)
    | ok prices =>
      rw [hf] at h
      simp at h
      exact Or.inr (Or.inr ⟨prices, rfl, rfl, h.symm⟩)

/-- A normally-returning `v3` cycle is the skip, fetch-failure or
fetch-success path; the latter two require the send to succeed. -/
theorem runCycle_v3_ok_cases (inp : CycleInput) (out : CycleOutcome)
    (h : runCycle_v3 inp = Except.ok out) :
    (inp.channelAvailable = false ∧ out = skipOutcome) ∨
    (∃ e, inp.channelAvailable = true ∧ inp.fetchResult = Except.error e ∧
      inp.notifyOk = true ∧ out = failOutcome (failureEmbed_v3 e)) ∨
    (∃ prices, inp.channelAvailable = true ∧ inp.fetchResult = Except.ok prices ∧
      inp.notifyOk = true ∧ out = normalOutcome_v3 inp prices) := by
  unfold runCycle_v3 at h
  cases hch : inp.channelAvailable with
  | false =>
    rw [hch] at h
    simp at h
    exact Or.inl ⟨rfl, h.symm⟩
  | true =>
    rw [hch] at h
    simp only [Bool.not_true, Bool.false_eq_true, if_false] at h
    cases hf : inp.fetchResult with
    | error e =>
      rw [hf] at h
      cases hn : inp.notifyOk with
      | false => rw [hn] at h; simp at h
      | true =>
        rw [hn] at h
        simp at h
        exact Or.inr (Or.inl ⟨e, rfl, rfl, rfl, h.symm⟩)
    | ok prices =>
      rw [hf] at h
      cases hn : inp.notifyOk with
      | false => rw [hn] at h; simp at h
      | true =>
        rw [hn] at h
        simp at h
        exact Or.inr (Or.inr ⟨prices, rfl, rfl, rfl, h.symm⟩)

/-- Colour of the `v2.1` report embed. -/
theorem buildEmbed_v21_color (d : List String) (s : List SheetRow) (w n : Nat) :
    (buildEmbed_v21 d s w n).color =
      if 0 < w ∧ w = n then Color.green else Color.orange := by
  simp only [buildEmbed_v21]
  split <;> split <;> rfl

/-- Colour of the `v3` report embed. -/
theorem buildEmbed_v3_color (d : List String) (s : List SheetRow) (w : Nat) :
    (buildEmbed_v3 d s w).color = if 0 < w then Color.green else Color.orange := by
  simp only [buildEmbed_v3]
  split <;> split <;> rfl

/-- Fields and description of the `v2.1` report embed, by table
emptiness. -/
theorem buildEmbed_v21_body (d : List String) (s : List SheetRow) (w n : Nat) :
    (d ≠ [] →
      (buildEmbed_v21 d s w n).fields =
        [("Live Prices", fullTable d),
         ("Instruments Fetched", "`" ++ toString s.length ++ "`"),
         ("Rows Written to GSheet", "`" ++ toString w ++ "`")] ∧
      (buildEmbed_v21 d s w n).description = none) ∧
    (d = [] →
      (buildEmbed_v21 d s w n).fields =
        [("Instruments Fetched", "`" ++ toString s.length ++ "`"),
         ("Rows Written to GSheet", "`" ++ toString w ++ "`")] ∧
      (buildEmbed_v21 d s w n).description =
        some "No price data was returned from the API.") := by
  constructor
  · intro hd
    simp [buildEmbed_v21, hd]
  · intro hd
    subst hd
    simp [buildEmbed_v21]

/-- Fields and description of the `v3` report embed, by table
emptiness: no message at all replaces the table when it is empty. -/
theorem buildEmbed_v3_body (d : List String) (s : List SheetRow) (w : Nat) :
    (d ≠ [] →
      (buildEmbed_v3 d s w).fields =
        [("Live Prices", fullTable d),
         ("Instruments Fetched", "`" ++ toString s.length ++ "`"),
         ("Rows Written to GSheet", "`" ++ toString w ++ "`")] ∧
      (buildEmbed_v3 d s w).description = none) ∧
    (d = [] →
      (buildEmbed_v3 d s w).fields =
        [("Instruments Fetched", "`" ++ toString s.length ++ "`"),
         ("Rows Written to GSheet", "`" ++ toString w ++ "`")] ∧
      (buildEmbed_v3 d s w).description = none) := by
  constructor
  · intro hd
    simp [buildEmbed_v3, hd]
  · intro hd
    subst hd
    simp [buildEmbed_v3]

/-- The sink result of one cycle: never more rows than handed to it,
zero on a failing call, zero on empty input. -/
theorem sinkResultOf_bounds (inp : CycleInput) (rows : List SheetRow) :
    (sinkResultOf inp rows).rowsWritten ≤ rows.length ∧
    (inp.appendOk = false → (sinkResultOf inp rows).rowsWritten = 0) ∧
    (rows = [] → (sinkResultOf inp rows).rowsWritten = 0) := by
  unfold sinkResultOf append_bulk_to_sheet
  cases hg : inp.gspreadClient with
  | false => simp
  | true =>
    cases hrows : rows.isEmpty with
    | true =>
      simp_all [List.isEmpty_iff]
    | false =>
      cases ha : inp.appendOk <;> simp_all [List.isEmpty_iff]

/-- Projections of the `v2.1` fetch-success outcome. -/
theorem normalOutcome_v21_proj (inp : CycleInput) (prices : List PriceData) :
    (normalOutcome_v21 inp prices).fetchFailed = false ∧
    (normalOutcome_v21 inp prices).displayRows = (processPrices inp.parseTime prices).1 ∧
    (normalOutcome_v21 inp prices).sheetRows = (processPrices inp.parseTime prices).2 ∧
    (normalOutcome_v21 inp prices).rowsWritten =
      (sinkResultOf inp (processPrices inp.parseTime prices).2).rowsWritten ∧
    (normalOutcome_v21 inp prices).embedBuilt =
      some (buildEmbed_v21 (processPrices inp.parseTime prices).1
        (processPrices inp.parseTime prices).2
        (sinkResultOf inp (processPrices inp.parseTime prices).2).rowsWritten
        inp.instrumentsRequested) ∧
    (normalOutcome_v21 inp prices).notifySucceeded = inp.notifyOk :=
  ⟨rfl, rfl, rfl, rfl, rfl, rfl⟩

/-- Projections of the `v3` fetch-success outcome. -/
theorem normalOutcome_v3_proj (inp : CycleInput) (prices : List PriceData) :
    (normalOutcome_v3 inp prices).fetchFailed = false ∧
    (normalOutcome_v3 inp prices).displayRows = (processPrices inp.parseTime prices).1 ∧
    (normalOutcome_v3 inp prices).sheetRows = (processPrices inp.parseTime prices).2 ∧
    (normalOutcome_v3 inp prices).rowsWritten =
      (sinkResultOf inp (processPrices inp.parseTime prices).2).rowsWritten ∧
    (normalOutcome_v3 inp prices).embedBuilt =
      some (buildEmbed_v3 (processPrices inp.parseTime prices).1
        (processPrices inp.parseTime prices).2
        (sinkResultOf inp (processPrices inp.parseTime prices).2).rowsWritten) :=
  ⟨rfl, rfl, rfl, rfl, rfl⟩

/-! ## Concrete cycle inputs used by witnesses and counterexamples -/

/-- One fully valid provider record. -/
def okPrices : List PriceData :=
  [⟨some "EUR_USD", [⟨"1.07321"⟩], [⟨"1.07335"⟩], some "tradeable",
    some "2024-01-02T03:04:05Z"⟩]

/-- A one-instrument cycle where every collaborator succeeds. -/
def okInput : CycleInput :=
  ⟨true, Except.ok okPrices, 1, true, true, true,
   fun _ => some "2024-01-02 03:04:05"⟩

/-- A cycle whose fetch succeeds but whose notification send fails. -/
def sendFailInput : CycleInput :=
  ⟨true, Except.ok okPrices, 1, true, true, false,
   fun _ => some "2024-01-02 03:04:05"⟩

/-- A cycle whose fetch raises and whose notification send fails. -/
def doubleFailInput : CycleInput :=
  ⟨true, Except.error "Connection reset by peer", 1, true, true, false,
   fun _ => none⟩

/-- A cycle whose fetch raises and whose notification send succeeds. -/
def fetchFailInput : CycleInput :=
  ⟨true, Except.error "Connection reset by peer", 3, true, true, true,
   fun _ => none⟩

/-- A fetch-success cycle with an empty provider response. -/
def emptyInput : CycleInput :=
  ⟨true, Except.ok [], 2, true, true, true, fun _ => none⟩

/-! ## Cycle-level claim theorems -/

/-- C1 counterexample: in `oanda_gsheets_bot3.py` the colour is green
whenever `rows_written > 0`, with no comparison against the requested
instrument count; with three instruments requested and one row written,
the report is green where the claim demands the warning colour. -/
theorem C1_counterexample :
    (⟨true, Except.ok okPrices, 3, true, true, true,
        fun _ => some "2024-01-02 03:04:05"⟩ : CycleInput).instrumentsRequested = 3 ∧
    (runCycle_v3 ⟨true, Except.ok okPrices, 3, true, true, true,
        fun _ => some "2024-01-02 03:04:05"⟩).map
        (fun out => (out.rowsWritten, out.fetchFailed, out.embedBuilt.map Embed.color)) =
      Except.ok (1, false, some Color.green) :=
  ⟨rfl, rfl⟩

/-- C1 amended: in `oanda_gsheets_bot2.1.py` a normally-returning cycle
is red iff the fetch failed, and (fetch succeeded) green iff
`rows_written > 0` and `rows_written` equals the requested instrument
count; in `oanda_gsheets_bot3.py` red iff the fetch failed, and (fetch
succeeded) green iff `rows_written > 0` alone — the equality with the
requested count is not checked there. -/
theorem C1_amended_color_rule (inp : CycleInput) (out21 out3 : CycleOutcome)
    (h21 : runCycle_v21 inp = Except.ok out21)
    (h3 : runCycle_v3 inp = Except.ok out3) :
    (out21.embedBuilt.map Embed.color = some Color.red ↔ out21.fetchFailed = true) ∧
    (out21.fetchFailed = false →
      (out21.embedBuilt.map Embed.color = some Color.green ↔
        out21.embedBuilt ≠ none ∧ 0 < out21.rowsWritten ∧
        out21.rowsWritten = inp.instrumentsRequested)) ∧
    (out3.embedBuilt.map Embed.color = some Color.red ↔ out3.fetchFailed = true) ∧
    (out3.fetchFailed = false →
      (out3.embedBuilt.map Embed.color = some Color.green ↔
        out3.embedBuilt ≠ none ∧ 0 < out3.rowsWritten)) := by
  have H21 := runCycle_v21_ok_cases inp out21 h21
  have H3 := runCycle_v3_ok_cases inp out3 h3
  refine ⟨?_, ?_, ?_, ?_⟩
  · rcases H21 with ⟨hch, rfl⟩ | ⟨e, hch, hf, hn, rfl⟩ | ⟨prices, hch, hf, rfl⟩
    · simp [skipOutcome]
    · simp [failOutcome, failureEmbed_v21]
    · simp only [normalOutcome_v21]
      simp [buildEmbed_v21_color]
      split <;> simp_all
  · intro hff
    rcases H21 with ⟨hch, rfl⟩ | ⟨e, hch, hf, hn, rfl⟩ | ⟨prices, hch, hf, rfl⟩
    · simp [skipOutcome]
    · simp [failOutcome] at hff
    · simp only [normalOutcome_v21]
      simp [buildEmbed_v21_color]
  · rcases H3 with ⟨hch, rfl⟩ | ⟨e, hch, hf, hn, rfl⟩ | ⟨prices, hch, hf, hn, rfl⟩
    · simp [skipOutcome]
    · simp [failOutcome, failureEmbed_v3]
    · simp only [normalOutcome_v3]
      simp [buildEmbed_v3_color]
      split <;> simp_all
  · intro hff
    rcases H3 with ⟨hch, rfl⟩ | ⟨e, hch, hf, hn, rfl⟩ | ⟨prices, hch, hf, hn, rfl⟩
    · simp [skipOutcome]
    · simp [failOutcome] at hff
    · simp only [normalOutcome_v3]
      simp [buildEmbed_v3_color]
      omega

/-- Witness for the amended C1 at a fully successful one-instrument
cycle. -/
theorem C1_amended_color_rule_witness :
    ((normalOutcome_v21 okInput okPrices).embedBuilt.map Embed.color = some Color.red ↔
      (normalOutcome_v21 okInput okPrices).fetchFailed = true) ∧
    ((normalOutcome_v21 okInput okPrices).fetchFailed = false →
      ((normalOutcome_v21 okInput okPrices).embedBuilt.map Embed.color = some Color.green ↔
        (normalOutcome_v21 okInput okPrices).embedBuilt ≠ none ∧
        0 < (normalOutcome_v21 okInput okPrices).rowsWritten ∧
        (normalOutcome_v21 okInput okPrices).rowsWritten = okInput.instrumentsRequested)) ∧
    ((normalOutcome_v3 okInput okPrices).embedBuilt.map Embed.color = some Color.red ↔
      (normalOutcome_v3 okInput okPrices).fetchFailed = true) ∧
    ((normalOutcome_v3 okInput okPrices).fetchFailed = false →
      ((normalOutcome_v3 okInput okPrices).embedBuilt.map Embed.color = some Color.green ↔
        (normalOutcome_v3 okInput okPrices).embedBuilt ≠ none ∧
        0 < (normalOutcome_v3 okInput okPrices).rowsWritten)) :=
  C1_amended_color_rule okInput (normalOutcome_v21 okInput okPrices)
    (normalOutcome_v3 okInput okPrices) rfl rfl

/-- C5: in a fetch-success cycle, and with the provider returning at
most one record per requested instrument, `quotes_parsed ≤
instruments_requested` and `rows_written ≤ quotes_parsed`; moreover
`rows_written = 0` whenever the append call fails and whenever the
parsed-row list is empty. -/
theorem C5_count_invariants (inp : CycleInput) (prices : List PriceData)
    (out : CycleOutcome)
    (hch : inp.channelAvailable = true)
    (hf : inp.fetchResult = Except.ok prices)
    (hcount : prices.length ≤ inp.instrumentsRequested)
    (h : runCycle_v21 inp = Except.ok out) :
    out.sheetRows.length ≤ inp.instrumentsRequested ∧
    out.rowsWritten ≤ out.sheetRows.length ∧
    (inp.appendOk = false → out.rowsWritten = 0) ∧
    (out.sheetRows = [] → out.rowsWritten = 0) := by
  rcases runCycle_v21_ok_cases inp out h with
    ⟨hch', _⟩ | ⟨e, _, hf', _, _⟩ | ⟨prices', _, hf', rfl⟩
  · rw [hch] at hch'
    cases hch'
  · rw [hf] at hf'
    cases hf'
  · rw [hf] at hf'
    injection hf' with hpp
    subst hpp
    obtain ⟨hb1, hb2, hb3⟩ :=
      sinkResultOf_bounds inp (processPrices inp.parseTime prices).2
    exact ⟨le_trans (processPrices_sheet_le_count inp.parseTime prices) hcount,
      hb1, hb2, hb3⟩

/-- Witness for C5 at a fully successful one-instrument cycle. -/
theorem C5_count_invariants_witness :
    (normalOutcome_v21 okInput okPrices).sheetRows.length ≤
      okInput.instrumentsRequested ∧
    (normalOutcome_v21 okInput okPrices).rowsWritten ≤
      (normalOutcome_v21 okInput okPrices).sheetRows.length ∧
    (okInput.appendOk = false → (normalOutcome_v21 okInput okPrices).rowsWritten = 0) ∧
    ((normalOutcome_v21 okInput okPrices).sheetRows = [] →
      (normalOutcome_v21 okInput okPrices).rowsWritten = 0) :=
  C5_count_invariants okInput okPrices (normalOutcome_v21 okInput okPrices)
    rfl rfl (by decide) rfl

/-- C6: when the fetch raises and the failure notification goes
through, both cycle bodies return immediately with the minimal red
failure embed: nothing is transformed, the sink is never called, no
full report is built (the failure embed has no fields), and the task
decorator still waits the configured interval before the next cycle. -/
theorem C6_fetch_failure_short_circuit (inp : CycleInput) (e : String)
    (interval : Nat)
    (hch : inp.channelAvailable = true)
    (hf : inp.fetchResult = Except.error e)
    (hn : inp.notifyOk = true) :
    runCycle_v21 inp = Except.ok (failOutcome (failureEmbed_v21 e)) ∧
    runCycle_v3 inp = Except.ok (failOutcome (failureEmbed_v3 e)) ∧
    (failOutcome (failureEmbed_v21 e)).displayRows = [] ∧
    (failOutcome (failureEmbed_v21 e)).sheetRows = [] ∧
    (failOutcome (failureEmbed_v21 e)).sinkCalled = false ∧
    (failOutcome (failureEmbed_v21 e)).rowsWritten = 0 ∧
    (failureEmbed_v21 e).color = Color.red ∧
    (failureEmbed_v21 e).fields = [] ∧
    (failureEmbed_v3 e).color = Color.red ∧
    (failureEmbed_v3 e).fields = [] ∧
    nextCycleDelay interval (runCycle_v21 inp) = interval ∧
    nextCycleDelay interval (runCycle_v3 inp) = interval := by
  refine ⟨?_, ?_, rfl, rfl, rfl, rfl, rfl, rfl, rfl, rfl, rfl, rfl⟩
  · simp [runCycle_v21, hch, hf, hn]
  · simp [runCycle_v3, hch, hf, hn]

/-- Witness for C6 at a concrete failing fetch. -/
theorem C6_fetch_failure_short_circuit_witness :
    runCycle_v21 fetchFailInput =
      Except.ok (failOutcome (failureEmbed_v21 "Connection reset by peer")) ∧
    runCycle_v3 fetchFailInput =
      Except.ok (failOutcome (failureEmbed_v3 "Connection reset by peer")) ∧
    (failOutcome (failureEmbed_v21 "Connection reset by peer")).displayRows = [] ∧
    (failOutcome (failureEmbed_v21 "Connection reset by peer")).sheetRows = [] ∧
    (failOutcome (failureEmbed_v21 "Connection reset by peer")).sinkCalled = false ∧
    (failOutcome (failureEmbed_v21 "Connection reset by peer")).rowsWritten = 0 ∧
    (failureEmbed_v21 "Connection reset by peer").color = Color.red ∧
    (failureEmbed_v21 "Connection reset by peer").fields = [] ∧
    (failureEmbed_v3 "Connection reset by peer").color = Color.red ∧
    (failureEmbed_v3 "Connection reset by peer").fields = [] ∧
    nextCycleDelay 60 (runCycle_v21 fetchFailInput) = 60 ∧
    nextCycleDelay 60 (runCycle_v3 fetchFailInput) = 60 :=
  C6_fetch_failure_short_circuit fetchFailInput "Connection reset by peer" 60
    rfl rfl rfl

/-- C7 counterexample: in `oanda_gsheets_bot3.py` the report send is
not guarded, so a failing `channel.send` raises out of the cycle body
even after a successful fetch — the claim that no exception from any
stage escapes is false. -/
theorem C7_counterexample :
    runCycle_v3 ⟨true, Except.ok [], 3, true, true, false, fun _ => none⟩ =
      Except.error "channel.send raised in report path" :=
  rfl

/-- C7 amended: in `oanda_gsheets_bot2.1.py` the fetch-success path
always returns normally — a failing report send is recovered by logging
only (`notifySucceeded = false`); but the fetch-failure
notification send of both files and the report send of
`oanda_gsheets_bot3.py` are unguarded, so a send failure there escapes
the cycle body. -/
theorem C7_amended_containment (inp : CycleInput) (prices : List PriceData)
    (e : String) :
    (inp.fetchResult = Except.ok prices → (runCycle_v21 inp).isOk = true) ∧
    (inp.channelAvailable = true → inp.fetchResult = Except.ok prices →
      inp.notifyOk = false →
      runCycle_v21 inp = Except.ok (normalOutcome_v21 inp prices) ∧
      (normalOutcome_v21 inp prices).notifySucceeded = false) ∧
    (inp.channelAvailable = true → inp.fetchResult = Except.error e →
      inp.notifyOk = false →
      (runCycle_v21 inp).isOk = false ∧ (runCycle_v3 inp).isOk = false) ∧
    (inp.channelAvailable = true → inp.fetchResult = Except.ok prices →
      inp.notifyOk = false → (runCycle_v3 inp).isOk = false) := by
  refine ⟨?_, ?_, ?_, ?_⟩
  · intro hf
    unfold runCycle_v21
    cases hch : inp.channelAvailable with
    | false => rfl
    | true => simp [hf, Except.isOk, Except.toBool]
  · intro hch hf hn
    exact ⟨by simp [runCycle_v21, hch, hf], by simp [normalOutcome_v21, hn]⟩
  · intro hch hf hn
    constructor <;>
      simp [runCycle_v21, runCycle_v3, hch, hf, hn, Except.isOk, Except.toBool]
  · intro hch hf hn
    simp [runCycle_v3, hch, hf, hn, Except.isOk, Except.toBool]

/-- Witness for the amended C7: a failing report send at a concrete
fetch-success cycle, and a failing failure-notification send at a
concrete fetch-failure cycle. -/
theorem C7_amended_containment_witness :
    (runCycle_v21 sendFailInput).isOk = true ∧
    (runCycle_v21 sendFailInput = Except.ok (normalOutcome_v21 sendFailInput okPrices) ∧
      (normalOutcome_v21 sendFailInput okPrices).notifySucceeded = false) ∧
    ((runCycle_v21 doubleFailInput).isOk = false ∧
      (runCycle_v3 doubleFailInput).isOk = false) ∧
    (runCycle_v3 sendFailInput).isOk = false :=
  ⟨(C7_amended_containment sendFailInput okPrices "Connection reset by peer").1 rfl,
   (C7_amended_containment sendFailInput okPrices
      "Connection reset by peer").2.1 rfl rfl rfl,
   (C7_amended_containment doubleFailInput okPrices
      "Connection reset by peer").2.2.1 rfl rfl rfl,
   (C7_amended_containment sendFailInput okPrices
      "Connection reset by peer").2.2.2 rfl rfl rfl⟩

/-- C9 counterexample: in `oanda_gsheets_bot3.py` a fetch-success cycle
that parsed zero quotes sends a report with no table and no explicit
"no data" message at all — the description stays `none` and the fields
are only the two counters. -/
theorem C9_counterexample :
    runCycle_v3 emptyInput = Except.ok (normalOutcome_v3 emptyInput []) ∧
    (normalOutcome_v3 emptyInput []).displayRows = [] ∧
    (normalOutcome_v3 emptyInput []).embedBuilt.map Embed.description = some none ∧
    (normalOutcome_v3 emptyInput []).embedBuilt.map Embed.fields =
      some [("Instruments Fetched", "`0`"), ("Rows Written to GSheet", "`0`")] :=
  ⟨rfl, rfl, rfl, rfl⟩

/-- C9 amended: in a fetch-success cycle, when at least one Discord row
was produced the report of both files carries the rendered table (in a
"Live Prices" field) followed by the two counters; when zero Discord
rows were produced, `oanda_gsheets_bot2.1.py` sets the explicit "No
price data was returned from the API." description while
`oanda_gsheets_bot3.py` leaves the description empty; the branch tests
the Discord-row list, which can be non-empty even when zero SheetRows
were parsed. -/
theorem C9_amended_report_body (inp : CycleInput) (prices : List PriceData)
    (out21 out3 : CycleOutcome)
    (hch : inp.channelAvailable = true)
    (hf : inp.fetchResult = Except.ok prices)
    (h21 : runCycle_v21 inp = Except.ok out21)
    (h3 : runCycle_v3 inp = Except.ok out3) :
    (out21.displayRows ≠ [] →
      out21.embedBuilt.map Embed.fields =
        some [("Live Prices", fullTable out21.displayRows),
          ("Instruments Fetched", "`" ++ toString out21.sheetRows.length ++ "`"),
          ("Rows Written to GSheet", "`" ++ toString out21.rowsWritten ++ "`")] ∧
      out21.embedBuilt.map Embed.description = some none) ∧
    (out21.displayRows = [] →
      out21.embedBuilt.map Embed.description =
        some (some "No price data was returned from the API.") ∧
      out21.embedBuilt.map Embed.fields =
        some [("Instruments Fetched", "`0`"), ("Rows Written to GSheet", "`0`")]) ∧
    (out3.displayRows ≠ [] →
      out3.embedBuilt.map Embed.fields =
        some [("Live Prices", fullTable out3.displayRows),
          ("Instruments Fetched", "`" ++ toString out3.sheetRows.length ++ "`"),
          ("Rows Written to GSheet", "`" ++ toString out3.rowsWritten ++ "`")] ∧
      out3.embedBuilt.map Embed.description = some none) ∧
    (out3.displayRows = [] →
      out3.embedBuilt.map Embed.description = some none ∧
      out3.embedBuilt.map Embed.fields =
        some [("Instruments Fetched", "`0`"), ("Rows Written to GSheet", "`0`")]) := by
  rcases runCycle_v21_ok_cases inp out21 h21 with
    ⟨hch', _⟩ | ⟨e, _, hf', _, _⟩ | ⟨prices', _, hf', rfl⟩
  · rw [hch] at hch'
    cases hch'
  · rw [hf] at hf'
    cases hf'
  rw [hf] at hf'
  injection hf' with hpp
  subst hpp
  rcases runCycle_v3_ok_cases inp out3 h3 with
    ⟨hch', _⟩ | ⟨e, _, hf3, _, _⟩ | ⟨prices'', _, hf3, _, rfl⟩
  · rw [hch] at hch'
    cases hch'
  · rw [hf] at hf3
    cases hf3
  rw [hf] at hf3
  injection hf3 with hpp
  subst hpp
  have hempty : (processPrices inp.parseTime prices).1 = [] →
      (processPrices inp.parseTime prices).2 = [] ∧
      (sinkResultOf inp (processPrices inp.parseTime prices).2).rowsWritten = 0 := by
    intro hd
    have hle := processPrices_sheet_le_display inp.parseTime prices
    rw [hd] at hle
    have hs : (processPrices inp.parseTime prices).2 = [] :=
      List.eq_nil_of_length_eq_zero (Nat.le_zero.mp (by simpa using hle))
    exact ⟨hs, (sinkResultOf_bounds inp _).2.2 hs⟩
  simp only [normalOutcome_v21, normalOutcome_v3, Option.map_some']
  refine ⟨?_, ?_, ?_, ?_⟩
  · intro hd
    obtain ⟨hfields, hdesc⟩ := (buildEmbed_v21_body
      (processPrices inp.parseTime prices).1 (processPrices inp.parseTime prices).2
      (sinkResultOf inp (processPrices inp.parseTime prices).2).rowsWritten
      inp.instrumentsRequested).1 hd
    exact ⟨by rw [hfields], by rw [hdesc]⟩
  · intro hd
    obtain ⟨hs, hw⟩ := hempty hd
    rw [hw, hs]
    obtain ⟨hfields, hdesc⟩ := (buildEmbed_v21_body
      (processPrices inp.parseTime prices).1 [] 0 inp.instrumentsRequested).2 hd
    exact ⟨by rw [hdesc], by rw [hfields]; rfl⟩
  · intro hd
    obtain ⟨hfields, hdesc⟩ := (buildEmbed_v3_body
      (processPrices inp.parseTime prices).1 (processPrices inp.parseTime prices).2
      (sinkResultOf inp (processPrices inp.parseTime prices).2).rowsWritten).1 hd
    exact ⟨by rw [hfields], by rw [hdesc]⟩
  · intro hd
    obtain ⟨hs, hw⟩ := hempty hd
    rw [hw, hs]
    obtain ⟨hfields, hdesc⟩ := (buildEmbed_v3_body
      (processPrices inp.parseTime prices).1 [] 0).2 hd
    exact ⟨by rw [hdesc], by rw [hfields]; rfl⟩

/-- Witness for the amended C9 at a fully successful one-instrument
cycle. -/
theorem C9_amended_report_body_witness :
    ((normalOutcome_v21 okInput okPrices).displayRows ≠ [] →
      (normalOutcome_v21 okInput okPrices).embedBuilt.map Embed.fields =
        some [("Live Prices", fullTable (normalOutcome_v21 okInput okPrices).displayRows),
          ("Instruments Fetched",
            "`" ++ toString (normalOutcome_v21 okInput okPrices).sheetRows.length ++ "`"),
          ("Rows Written to GSheet",
            "`" ++ toString (normalOutcome_v21 okInput okPrices).rowsWritten ++ "`")] ∧
      (normalOutcome_v21 okInput okPrices).embedBuilt.map Embed.description = some none) ∧
    ((normalOutcome_v21 okInput okPrices).displayRows = [] →
      (normalOutcome_v21 okInput okPrices).embedBuilt.map Embed.description =
        some (some "No price data was returned from the API.") ∧
      (normalOutcome_v21 okInput okPrices).embedBuilt.map Embed.fields =
        some [("Instruments Fetched", "`0`"), ("Rows Written to GSheet", "`0`")]) ∧
    ((normalOutcome_v3 okInput okPrices).displayRows ≠ [] →
      (normalOutcome_v3 okInput okPrices).embedBuilt.map Embed.fields =
        some [("Live Prices", fullTable (normalOutcome_v3 okInput okPrices).displayRows),
          ("Instruments Fetched",
            "`" ++ toString (normalOutcome_v3 okInput okPrices).sheetRows.length ++ "`"),
          ("Rows Written to GSheet",
            "`" ++ toString (normalOutcome_v3 okInput okPrices).rowsWritten ++ "`")] ∧
      (normalOutcome_v3 okInput okPrices).embedBuilt.map Embed.description = some none) ∧
    ((normalOutcome_v3 okInput okPrices).displayRows = [] →
      (normalOutcome_v3 okInput okPrices).embedBuilt.map Embed.description = some none ∧
      (normalOutcome_v3 okInput okPrices).embedBuilt.map Embed.fields =
        some [("Instruments Fetched", "`0`"), ("Rows Written to GSheet", "`0`")]) :=
  C9_amended_report_body okInput okPrices (normalOutcome_v21 okInput okPrices)
    (normalOutcome_v3 okInput okPrices) rfl rfl rfl rfl

end TraderBot
